import Mathlib

/-!
Shallow embedding of the two Go services of the weather-app-with-tracing
repository (src/service-a/service_a.go, src/service-b/service_b.go).

Go float64 values coming from JSON payloads and the temperature arithmetic
are modelled by exact rationals.  The fallible HTTP calls (transport,
status code, body read, JSON unmarshal) are modelled by explicit
environment values handed to the handlers.  OpenTelemetry spans are
modelled by an event log: tracer.Start appends a start event and the
deferred span.End appends an end event on every exit path of the
enclosing function, which is exactly the Go defer semantics for the
pure function bodies at hand.
-/

namespace WeatherApp

/-! JSON documents as sent by the external providers.  A numeric field can
be written as an integer literal or as a floating-point literal. -/

inductive JsonNum where
  | intLit : Int → JsonNum
  | floatLit : Rat → JsonNum
deriving DecidableEq

def JsonNum.toRat : JsonNum → Rat
  | .intLit n => (n : Rat)
  | .floatLit q => q

inductive Json where
  | null : Json
  | bool : Bool → Json
  | num : JsonNum → Json
  | str : String → Json
  | arr : List Json → Json
  | obj : List (String × Json) → Json

/-! Go dynamic values, as produced by json.Unmarshal into
map[string]interface\x7b\x7d.  Go's json package decodes every JSON number
into a float64; the int constructor exists because the Go code performs an
.(int) type assertion, but json.Unmarshal never produces it. -/

inductive GoVal where
  | null : GoVal
  | bool : Bool → GoVal
  | num : Rat → GoVal
  | int : Int → GoVal
  | str : String → GoVal
  | arr : List GoVal → GoVal
  | obj : List (String × GoVal) → GoVal

mutual

def goDecode : Json → GoVal
  | .null => .null
  | .bool b => .bool b
  | .num k => .num k.toRat
  | .str s => .str s
  | .arr xs => .arr (goDecodeList xs)
  | .obj fs => .obj (goDecodeFields fs)

def goDecodeList : List Json → List GoVal
  | [] => []
  | x :: xs => goDecode x :: goDecodeList xs

def goDecodeFields : List (String × Json) → List (String × GoVal)
  | [] => []
  | (k, v) :: fs => (k, goDecode v) :: goDecodeFields fs

end

/-- Go map indexing for a map built by json.Unmarshal in field order: a
later duplicate key overwrites an earlier one, so the last binding wins. -/
def goMapGet : List (String × GoVal) → String → Option GoVal
  | [], _ => none
  | p :: rest, k =>
    match goMapGet rest k with
    | some v => some v
    | none => if p.1 = k then some p.2 else none

/-- Lookup of a field in a JSON object, with the same last-binding-wins
convention as goMapGet. -/
def jsonGet : List (String × Json) → String → Option Json
  | [], _ => none
  | p :: rest, k =>
    match jsonGet rest k with
    | some v => some v
    | none => if p.1 = k then some p.2 else none

def GoVal.asString : GoVal → Option String
  | .str s => some s
  | _ => none

def GoVal.asObj : GoVal → Option (List (String × GoVal))
  | .obj fs => some fs
  | _ => none

def GoVal.asFloat : GoVal → Option Rat
  | .num q => some q
  | _ => none

def GoVal.asInt : GoVal → Option Int
  | .int n => some n
  | _ => none

/-! Outcome of one outbound HTTP call, as observed by the Go code:
request construction or transport can fail, otherwise a status code
arrives together with a body whose read or unmarshal can fail. -/

inductive BodyResult where
  | readErr : BodyResult
  | unmarshalErr : BodyResult
  | decoded : Json → BodyResult

inductive FetchResult where
  | transportErr : FetchResult
  | response : Nat → BodyResult → FetchResult

/-! Span event log. -/

inductive SpanEvent where
  | started : String → SpanEvent
  | ended : String → SpanEvent
deriving DecidableEq

/-- Deferred span.End around a function body: the start event precedes the
body's events and the end event is appended on every exit path. -/
def withSpan (name : String) (events : List SpanEvent) : List SpanEvent :=
  SpanEvent.started name :: events ++ [SpanEvent.ended name]

def countStarts : List SpanEvent → String → Nat
  | [], _ => 0
  | .started m :: rest, n => (if m = n then 1 else 0) + countStarts rest n
  | .ended _ :: rest, n => countStarts rest n

def countEnds : List SpanEvent → String → Nat
  | [], _ => 0
  | .started _ :: rest, n => countEnds rest n
  | .ended m :: rest, n => (if m = n then 1 else 0) + countEnds rest n

/-- Every span name is started as often as it is ended. -/
def balanced (l : List SpanEvent) : Prop :=
  ∀ n, countStarts l n = countEnds l n

/-! service-b: getLocation (src/service-b/service_b.go lines 122-160). -/

def getLocationResult : FetchResult → Except String String
  | .transportErr => .error "transport error"
  | .response statusCode body =>
    if statusCode ≠ 200 then .error "invalid response from ViaCEP"
    else
      match body with
      | .readErr => .error "read error"
      | .unmarshalErr => .error "unmarshal error"
      | .decoded j =>
        match goDecode j with
        | .obj result =>
          match (goMapGet result "localidade").bind GoVal.asString with
          | some localidade => .ok localidade
          | none => .error "localidade not found in response"
        | _ => .error "unmarshal error"

def getLocation (fetch : FetchResult) : List SpanEvent × Except String String :=
  (withSpan "getLocation from viacep" [], getLocationResult fetch)

/-! service-b: getTemperature (src/service-b/service_b.go lines 162-212).
The temp_c field is first asserted to float64 and, failing that, to int;
json.Unmarshal never yields a Go int, so the fallback never fires, but it
is part of the source and is embedded as written. -/

def getTemperatureResult : FetchResult → Except String Rat
  | .transportErr => .error "transport error"
  | .response statusCode body =>
    if statusCode ≠ 200 then .error "invalid response from WeatherAPI"
    else
      match body with
      | .readErr => .error "read error"
      | .unmarshalErr => .error "unmarshal error"
      | .decoded j =>
        match goDecode j with
        | .obj result =>
          match (goMapGet result "current").bind GoVal.asObj with
          | none => .error "current weather data not found in response"
          | some current =>
            match (goMapGet current "temp_c").bind GoVal.asFloat with
            | some tempC => .ok tempC
            | none =>
              match (goMapGet current "temp_c").bind GoVal.asInt with
              | some tempCInt => .ok (tempCInt : Rat)
              | none => .error "temperature data not found in response"
        | _ => .error "unmarshal error"

def getTemperature (fetch : FetchResult) : List SpanEvent × Except String Rat :=
  (withSpan "getTemperature from weatherapi" [], getTemperatureResult fetch)

/-! service-b: toFixed (src/service-b/service_b.go lines 214-217).
Go math.Round rounds half away from zero. -/

def mathRound (x : Rat) : Int :=
  if 0 ≤ x then ⌊x + 1/2⌋ else ⌈x - 1/2⌉

def toFixed (num : Rat) (precision : Nat) : Rat :=
  let precicionBase10 : Rat := 10 ^ precision
  (mathRound (num * precicionBase10) : Rat) / precicionBase10

/-- Modelled from the spec: rounding half away from zero to two decimal
places, written through the absolute value as the spec phrases it. -/
def specRound2 (x : Rat) : Rat :=
  if x < 0 then -((⌊-x * 100 + 1/2⌋ : Rat) / 100)
  else (⌊x * 100 + 1/2⌋ : Rat) / 100

/-! service-b: getWeatherHandler (src/service-b/service_b.go lines 81-120). -/

structure WeatherResponse where
  localidade : String
  tempC : Rat
  tempF : Rat
  tempK : Rat
deriving DecidableEq

inductive Upstream where
  | viacep : Upstream
  | weatherapi : Upstream
deriving DecidableEq

structure BackendEnv where
  cep : String
  viacep : FetchResult
  weather : FetchResult

inductive BackendReply where
  | httpError : Nat → String → BackendReply
  | okJson : WeatherResponse → BackendReply
deriving DecidableEq

structure BackendResult where
  spans : List SpanEvent
  calls : List Upstream
  reply : BackendReply

def getWeatherHandler (env : BackendEnv) : BackendResult :=
  if env.cep.utf8ByteSize ≠ 8 then
    { spans := withSpan "getWeatherHandler" [], calls := [],
      reply := .httpError 422 "invalid zipcode" }
  else
    match getLocation env.viacep with
    | (ev1, .error _) =>
      { spans := withSpan "getWeatherHandler" ev1, calls := [.viacep],
        reply := .httpError 404 "can not find zipcode" }
    | (ev1, .ok location) =>
      match getTemperature env.weather with
      | (ev2, .error _) =>
        { spans := withSpan "getWeatherHandler" (ev1 ++ ev2),
          calls := [.viacep, .weatherapi],
          reply := .httpError 500 "error fetching temperature" }
      | (ev2, .ok tempC) =>
        let tempF := tempC * 1.8 + 32
        let tempK := tempC + 273.15
        { spans := withSpan "getWeatherHandler" (ev1 ++ ev2),
          calls := [.viacep, .weatherapi],
          reply := .okJson
            { localidade := location, tempC := toFixed tempC 2,
              tempF := toFixed tempF 2, tempK := toFixed tempK 2 } }

/-! service-a: postCepHandler (src/service-a/service_a.go lines 90-133). -/

def CEP_LENGTH : Nat := 8

def getTempEndpoint : String := "http://service-b:8000/"

structure Cep where
  cep : String
deriving DecidableEq

structure TemperatureResponse where
  localidade : String
  tempC : Rat
  tempF : Rat
  tempK : Rat
deriving DecidableEq, Inhabited

structure BackendHttpResponse where
  statusCode : Nat
  bodyDecode : Option TemperatureResponse

structure EdgeEnv where
  decodedBody : Option Cep
  newRequestErr : Bool
  doResult : Option BackendHttpResponse

structure OutboundRequest where
  method : String
  url : String
  traceInjected : Bool
deriving DecidableEq

inductive EdgeReply where
  | httpError : Nat → String → EdgeReply
  | relayed : Nat → TemperatureResponse → EdgeReply
deriving DecidableEq

structure EdgeResult where
  spans : List SpanEvent
  outbound : List OutboundRequest
  reply : EdgeReply

def postCepHandler (env : EdgeEnv) : EdgeResult :=
  let inner : List OutboundRequest × EdgeReply :=
    match env.decodedBody with
    | none => ([], .httpError 422 "invalid zipcode")
    | some c =>
      if c.cep.utf8ByteSize ≠ CEP_LENGTH then
        ([], .httpError 422 "invalid zipcode")
      else
        let weatherUrl := getTempEndpoint ++ "?cep=" ++ c.cep
        if env.newRequestErr then
          ([], .httpError 500 "NewRequestWithContext service b error")
        else
          let req : OutboundRequest :=
            { method := "GET", url := weatherUrl, traceInjected := true }
          match env.doResult with
          | none => ([req], .httpError 500 "DefaultClient.Do service b error")
          | some resp =>
            let response := resp.bodyDecode.getD default
            if resp.statusCode = 404 then
              ([req], .httpError resp.statusCode "can not find zipcode")
            else
              ([req], .relayed resp.statusCode response)
  { spans := withSpan "request-temp-info-to-service-b" [],
    outbound := inner.1, reply := inner.2 }

/-! Concrete environments used by the witness theorems. -/

def envC1 : BackendEnv :=
  { cep := "12345678",
    viacep := .response 200 (.decoded (Json.obj [("localidade", Json.str "Sao Paulo")])),
    weather := .response 200 (.decoded (Json.obj
      [("current", Json.obj [("temp_c", Json.num (.floatLit 28.5))])])) }

def envC3 : EdgeEnv :=
  { decodedBody := none, newRequestErr := false, doResult := none }

def envC4 : BackendEnv :=
  { cep := "1234", viacep := .transportErr, weather := .transportErr }

def envC5 : BackendEnv :=
  { cep := "12345678", viacep := .transportErr, weather := .transportErr }

def envC6 : BackendEnv :=
  { cep := "12345678",
    viacep := .response 200 (.decoded (Json.obj [("localidade", Json.str "Sao Paulo")])),
    weather := .response 500 .readErr }

def envC7 : EdgeEnv :=
  { decodedBody := some { cep := "12345678" }, newRequestErr := false,
    doResult := some { statusCode := 404, bodyDecode := none } }

def envC8 : EdgeEnv :=
  { decodedBody := some { cep := "12345678" }, newRequestErr := false,
    doResult := some ⟨200, some ⟨"", 0, 0, 0⟩⟩ }

/-! Helper lemmas about span logs. -/

theorem countStarts_append (l1 l2 : List SpanEvent) (n : String) :
    countStarts (l1 ++ l2) n = countStarts l1 n + countStarts l2 n := by
  induction l1 with
  | nil => simp [countStarts]
  | cons e rest ih =>
    cases e with
    | started m =>
      show (if m = n then 1 else 0) + countStarts (rest ++ l2) n =
        ((if m = n then 1 else 0) + countStarts rest n) + countStarts l2 n
      rw [ih]
      omega
    | ended m =>
      show countStarts (rest ++ l2) n = countStarts rest n + countStarts l2 n
      exact ih

theorem countEnds_append (l1 l2 : List SpanEvent) (n : String) :
    countEnds (l1 ++ l2) n = countEnds l1 n + countEnds l2 n := by
  induction l1 with
  | nil => simp [countEnds]
  | cons e rest ih =>
    cases e with
    | started m =>
      show countEnds (rest ++ l2) n = countEnds rest n + countEnds l2 n
      exact ih
    | ended m =>
      show (if m = n then 1 else 0) + countEnds (rest ++ l2) n =
        ((if m = n then 1 else 0) + countEnds rest n) + countEnds l2 n
      rw [ih]
      omega

theorem balanced_nil : balanced ([] : List SpanEvent) := fun _ => rfl

theorem balanced_append {l1 l2 : List SpanEvent}
    (h1 : balanced l1) (h2 : balanced l2) : balanced (l1 ++ l2) := by
  intro n
  rw [countStarts_append, countEnds_append, h1 n, h2 n]

theorem balanced_withSpan (m : String) {l : List SpanEvent}
    (h : balanced l) : balanced (withSpan m l) := by
  intro n
  have hn := h n
  show (if m = n then 1 else 0) + countStarts (l ++ [SpanEvent.ended m]) n =
    countEnds (l ++ [SpanEvent.ended m]) n
  rw [countStarts_append, countEnds_append]
  show (if m = n then 1 else 0) + (countStarts l n + 0) =
    countEnds l n + ((if m = n then 1 else 0) + 0)
  omega

/-! Helper lemmas about decoded lookups and rounding. -/

theorem goMapGet_decodeFields (l : List (String × Json)) (k : String) :
    goMapGet (goDecodeFields l) k = (jsonGet l k).map goDecode := by
  induction l with
  | nil => rfl
  | cons p rest ih =>
    obtain ⟨key, v⟩ := p
    simp only [goDecodeFields, goMapGet, jsonGet, ih]
    cases jsonGet rest k with
    | some w => simp
    | none =>
      by_cases hk : key = k <;> simp [hk]

theorem toFixed_eq_specRound2 (x : Rat) : toFixed x 2 = specRound2 x := by
  simp only [toFixed, mathRound, specRound2]
  have h100 : ((10 : Rat) ^ (2 : Nat)) = 100 := by norm_num
  rw [h100]
  rcases lt_or_le x 0 with h | h
  · have h1 : ¬ (0 ≤ x * 100) := by
      exact not_le.mpr (mul_neg_of_neg_of_pos h (by norm_num))
    rw [if_neg h1, if_pos h]
    have h2 : x * 100 - 1 / 2 = -(-x * 100 + 1 / 2) := by ring
    rw [h2, Int.ceil_neg]
    push_cast
    ring
  · have h1 : 0 ≤ x * 100 := mul_nonneg h (by norm_num)
    rw [if_pos h1, if_neg (not_lt.mpr h)]

/-- C1: a Celsius value c obtained from the weather provider is reported
back as temp_C = round(c, 2), temp_F = round(c*1.8+32, 2) and
temp_K = round(c+273.15, 2), rounding half away from zero to two decimal
places; in particular c = 28.5 gives temp_F = 83.3 and temp_K = 301.65. -/
theorem claim1_temperature_conversion (env : BackendEnv) (c : Rat) (loc : String)
    (hcep : env.cep.utf8ByteSize = 8)
    (hloc : getLocationResult env.viacep = .ok loc)
    (htemp : getTemperatureResult env.weather = .ok c) :
    (getWeatherHandler env).reply =
      .okJson { localidade := loc, tempC := specRound2 c,
                tempF := specRound2 (c * 1.8 + 32),
                tempK := specRound2 (c + 273.15) } ∧
    specRound2 ((28.5 : Rat) * 1.8 + 32) = 83.3 ∧
    specRound2 ((28.5 : Rat) + 273.15) = 301.65 ∧
    specRound2 (28.5 : Rat) = 28.5 := by
  refine ⟨?_, by norm_num [specRound2], by norm_num [specRound2], by norm_num [specRound2]⟩
  unfold getWeatherHandler
  simp [hcep, getLocation, getTemperature, hloc, htemp, toFixed_eq_specRound2]

/-- C1 witness: the theorem applied to a fully successful concrete run
with locality Sao Paulo and temp_c 28.5. -/
theorem claim1_temperature_conversion_witness :
    (getWeatherHandler envC1).reply =
      .okJson { localidade := "Sao Paulo", tempC := specRound2 28.5,
                tempF := specRound2 (28.5 * 1.8 + 32),
                tempK := specRound2 (28.5 + 273.15) } ∧
    specRound2 ((28.5 : Rat) * 1.8 + 32) = 83.3 ∧
    specRound2 ((28.5 : Rat) + 273.15) = 301.65 ∧
    specRound2 (28.5 : Rat) = 28.5 :=
  claim1_temperature_conversion envC1 28.5 "Sao Paulo" (by decide) rfl rfl

/-- C2: for every request to either handler and every exit path, the span
log is balanced: each span name is started exactly as often as it is
ended, across the edge handler, the backend handler and both resolvers. -/
theorem claim2_every_span_closed (ea : EdgeEnv) (eb : BackendEnv) :
    balanced (postCepHandler ea).spans ∧ balanced (getWeatherHandler eb).spans := by
  constructor
  · exact balanced_withSpan _ balanced_nil
  · unfold getWeatherHandler
    by_cases h : eb.cep.utf8ByteSize ≠ 8
    · rw [if_pos h]
      exact balanced_withSpan _ balanced_nil
    · rw [if_neg h]
      rcases hl : getLocationResult eb.viacep with e | loc
      · simp only [getLocation, hl]
        exact balanced_withSpan _ (balanced_withSpan _ balanced_nil)
      · simp only [getLocation, hl]
        rcases ht : getTemperatureResult eb.weather with e2 | t
        · simp only [getTemperature, ht]
          exact balanced_withSpan _
            (balanced_append (balanced_withSpan _ balanced_nil)
              (balanced_withSpan _ balanced_nil))
        · simp only [getTemperature, ht]
          exact balanced_withSpan _
            (balanced_append (balanced_withSpan _ balanced_nil)
              (balanced_withSpan _ balanced_nil))

/-- C3: an edge request whose body does not decode to a JSON object with a
string cep field, or whose cep is not exactly 8 bytes long, is answered
with 422 invalid zipcode and no outbound request is issued. -/
theorem claim3_edge_invalid_zipcode (env : EdgeEnv)
    (h : ∀ c, env.decodedBody = some c → c.cep.utf8ByteSize ≠ 8) :
    (postCepHandler env).reply = .httpError 422 "invalid zipcode" ∧
    (postCepHandler env).outbound = [] := by
  unfold postCepHandler
  rcases hb : env.decodedBody with _ | c
  · exact ⟨rfl, rfl⟩
  · have hc := h c hb
    simp [hb, hc, CEP_LENGTH]

/-- C3 witness: a request whose body fails to deserialize. -/
theorem claim3_edge_invalid_zipcode_witness :
    (postCepHandler envC3).reply = .httpError 422 "invalid zipcode" ∧
    (postCepHandler envC3).outbound = [] :=
  claim3_edge_invalid_zipcode envC3 (fun _ hc => Option.noConfusion hc)

/-- C4: a backend request whose cep query parameter is not exactly 8 bytes
long (a missing parameter arrives as the empty string) is answered with
422 invalid zipcode, and neither resolver is called. -/
theorem claim4_backend_invalid_zipcode (env : BackendEnv)
    (h : env.cep.utf8ByteSize ≠ 8) :
    (getWeatherHandler env).reply = .httpError 422 "invalid zipcode" ∧
    (getWeatherHandler env).calls = [] := by
  unfold getWeatherHandler
  simp [h]

/-- C4 witness: a 4-byte cep. -/
theorem claim4_backend_invalid_zipcode_witness :
    (getWeatherHandler envC4).reply = .httpError 422 "invalid zipcode" ∧
    (getWeatherHandler envC4).calls = [] :=
  claim4_backend_invalid_zipcode envC4 (by decide)

/-- C5: when the geocode resolver fails the backend answers 404 can not
find zipcode and never calls the temperature resolver; moreover a non-200
provider status, a transport error, and a 200 body without a string
localidade field each make the resolver fail. -/
theorem claim5_geocode_failure_maps_to_404 (env : BackendEnv) (e : String)
    (hcep : env.cep.utf8ByteSize = 8)
    (h : getLocationResult env.viacep = .error e) :
    ((getWeatherHandler env).reply = .httpError 404 "can not find zipcode" ∧
      Upstream.weatherapi ∉ (getWeatherHandler env).calls) ∧
    (∀ statusCode body, statusCode ≠ 200 →
      ∃ m, getLocationResult (.response statusCode body) = .error m) ∧
    (∃ m, getLocationResult .transportErr = .error m) ∧
    (∀ j fields, goDecode j = .obj fields →
      (goMapGet fields "localidade").bind GoVal.asString = none →
      ∃ m, getLocationResult (.response 200 (.decoded j)) = .error m) := by
  refine ⟨?_, ?_, ⟨_, rfl⟩, ?_⟩
  · unfold getWeatherHandler
    simp [hcep, getLocation, h]
  · intro statusCode body hst
    exact ⟨"invalid response from ViaCEP", by simp [getLocationResult, hst]⟩
  · intro j fields hdec hnone
    refine ⟨"localidade not found in response", ?_⟩
    simp [getLocationResult, hdec, hnone]

/-- C5 witness: a geocode transport error on a valid cep. -/
theorem claim5_geocode_failure_maps_to_404_witness :
    ((getWeatherHandler envC5).reply = .httpError 404 "can not find zipcode" ∧
      Upstream.weatherapi ∉ (getWeatherHandler envC5).calls) ∧
    (∀ statusCode body, statusCode ≠ 200 →
      ∃ m, getLocationResult (.response statusCode body) = .error m) ∧
    (∃ m, getLocationResult .transportErr = .error m) ∧
    (∀ j fields, goDecode j = .obj fields →
      (goMapGet fields "localidade").bind GoVal.asString = none →
      ∃ m, getLocationResult (.response 200 (.decoded j)) = .error m) :=
  claim5_geocode_failure_maps_to_404 envC5 "transport error" (by decide) rfl

/-- C6: once a locality is resolved, a temperature-resolver failure makes
the backend answer 500 error fetching temperature; moreover a non-200
provider status, a transport error, and a 200 body without a numeric
current.temp_c field each make the resolver fail. -/
theorem claim6_temperature_failure_maps_to_500 (env : BackendEnv) (loc e : String)
    (hcep : env.cep.utf8ByteSize = 8)
    (hloc : getLocationResult env.viacep = .ok loc)
    (h : getTemperatureResult env.weather = .error e) :
    (getWeatherHandler env).reply = .httpError 500 "error fetching temperature" ∧
    (∀ statusCode body, statusCode ≠ 200 →
      ∃ m, getTemperatureResult (.response statusCode body) = .error m) ∧
    (∃ m, getTemperatureResult .transportErr = .error m) ∧
    (∀ j fields current, goDecode j = .obj fields →
      (goMapGet fields "current").bind GoVal.asObj = some current →
      (goMapGet current "temp_c").bind GoVal.asFloat = none →
      (goMapGet current "temp_c").bind GoVal.asInt = none →
      ∃ m, getTemperatureResult (.response 200 (.decoded j)) = .error m) := by
  refine ⟨?_, ?_, ⟨_, rfl⟩, ?_⟩
  · unfold getWeatherHandler
    simp [hcep, getLocation, getTemperature, hloc, h]
  · intro statusCode body hst
    exact ⟨"invalid response from WeatherAPI", by simp [getTemperatureResult, hst]⟩
  · intro j fields current hdec hcur hfloat hint
    refine ⟨"temperature data not found in response", ?_⟩
    simp [getTemperatureResult, hdec, hcur, hfloat, hint]

/-- C6 witness: geocoding succeeds, the weather provider answers 500. -/
theorem claim6_temperature_failure_maps_to_500_witness :
    (getWeatherHandler envC6).reply = .httpError 500 "error fetching temperature" ∧
    (∀ statusCode body, statusCode ≠ 200 →
      ∃ m, getTemperatureResult (.response statusCode body) = .error m) ∧
    (∃ m, getTemperatureResult .transportErr = .error m) ∧
    (∀ j fields current, goDecode j = .obj fields →
      (goMapGet fields "current").bind GoVal.asObj = some current →
      (goMapGet current "temp_c").bind GoVal.asFloat = none →
      (goMapGet current "temp_c").bind GoVal.asInt = none →
      ∃ m, getTemperatureResult (.response 200 (.decoded j)) = .error m) :=
  claim6_temperature_failure_maps_to_500 envC6 "Sao Paulo"
    "invalid response from WeatherAPI" (by decide) rfl rfl

/-- C7: when the backend answers a forwarded request with status 404, the
edge answers its own caller with 404 can not find zipcode, whatever the
backend body decoded to. -/
theorem claim7_edge_relays_404 (env : EdgeEnv) (c : Cep) (resp : BackendHttpResponse)
    (hbody : env.decodedBody = some c) (hlen : c.cep.utf8ByteSize = 8)
    (hreq : env.newRequestErr = false) (hdo : env.doResult = some resp)
    (hst : resp.statusCode = 404) :
    (postCepHandler env).reply = .httpError 404 "can not find zipcode" := by
  unfold postCepHandler
  simp [hbody, hlen, hreq, hdo, hst, CEP_LENGTH]

/-- C7 witness: a backend 404 with an undecodable body. -/
theorem claim7_edge_relays_404_witness :
    (postCepHandler envC7).reply = .httpError 404 "can not find zipcode" :=
  claim7_edge_relays_404 envC7 { cep := "12345678" }
    { statusCode := 404, bodyDecode := none } rfl (by decide) rfl rfl rfl

/-- C8: for a body that decodes to an 8-byte cep, and provided request
construction succeeds, the edge issues exactly one outbound GET to the
backend endpoint carrying the same cep as query parameter, with the trace
context injected. -/
theorem claim8_edge_forwards_once (env : EdgeEnv) (c : Cep)
    (hbody : env.decodedBody = some c) (hlen : c.cep.utf8ByteSize = 8)
    (hreq : env.newRequestErr = false) :
    (postCepHandler env).outbound =
      [{ method := "GET", url := getTempEndpoint ++ "?cep=" ++ c.cep,
         traceInjected := true }] := by
  unfold postCepHandler
  rcases hdo : env.doResult with _ | resp
  · simp [hbody, hlen, hreq, hdo, CEP_LENGTH]
  · by_cases h404 : resp.statusCode = 404 <;>
      simp [hbody, hlen, hreq, hdo, h404, CEP_LENGTH]

/-- C8 witness: a valid cep forwarded and answered with 200. -/
theorem claim8_edge_forwards_once_witness :
    (postCepHandler envC8).outbound =
      [{ method := "GET", url := getTempEndpoint ++ "?cep=" ++ "12345678",
         traceInjected := true }] :=
  claim8_edge_forwards_once envC8 { cep := "12345678" } rfl (by decide) rfl

/-- C9: a 200 weather response whose JSON carries current.temp_c as a
number — integer literal or floating-point literal — is accepted, and the
value is returned as the (floating-point) Celsius reading. -/
theorem claim9_numeric_temp_accepted (jfields jcur : List (String × Json)) (k : JsonNum)
    (hcur : jsonGet jfields "current" = some (Json.obj jcur))
    (ht : jsonGet jcur "temp_c" = some (Json.num k)) :
    getTemperatureResult (.response 200 (.decoded (Json.obj jfields))) = .ok k.toRat := by
  simp [getTemperatureResult, goDecode, goMapGet_decodeFields, hcur, ht,
    GoVal.asObj, GoVal.asFloat]

/-- C9 witness: the integer literal 28 is accepted and becomes 28.0. -/
theorem claim9_numeric_temp_accepted_witness :
    getTemperatureResult (.response 200 (.decoded (Json.obj
      [("current", Json.obj [("temp_c", Json.num (.intLit 28))])]))) =
      .ok (JsonNum.intLit 28).toRat :=
  claim9_numeric_temp_accepted [("current", Json.obj [("temp_c", Json.num (.intLit 28))])]
    [("temp_c", Json.num (.intLit 28))] (.intLit 28) rfl rfl

/-- C10: both handlers compare the byte length of the cep to 8, not its
character count: an 8-character string with a multi-byte character is
rejected with 422, while a 4-character string of 2-byte characters passes
validation in both services. -/
theorem claim10_byte_length_validation :
    (∃ s : String, s.length = 8 ∧ s.utf8ByteSize ≠ 8 ∧
      (getWeatherHandler ⟨s, .transportErr, .transportErr⟩).reply =
        .httpError 422 "invalid zipcode" ∧
      (postCepHandler ⟨some ⟨s⟩, false, none⟩).reply =
        .httpError 422 "invalid zipcode") ∧
    (∃ s : String, s.length < 8 ∧ s.utf8ByteSize = 8 ∧
      (getWeatherHandler ⟨s, .transportErr, .transportErr⟩).calls =
        [Upstream.viacep] ∧
      (postCepHandler ⟨some ⟨s⟩, false, none⟩).outbound ≠ []) := by
  refine ⟨⟨"1234567ã", by decide, by decide, by decide, by decide⟩,
    ⟨"ãããã", by decide, by decide, by decide, by decide⟩⟩

end WeatherApp
